import Mathlib

/-!
Shallow embedding of `src/msgbox.c` (markstinson/msgbox): a minimal
message-oriented networking runtime built around a readiness-polling
reactor, an 8-byte wire header codec, a peer-address registry and a
deferred callback dispatch queue.

Machine integers are modelled as `Nat` with explicit `% 2^16` where the C
code truncates to `uint16_t`; byte buffers are `List Nat` of values < 256;
fallible paths return `Option`/`Except`; the OS socket calls are modelled
by passing their outcomes as explicit parameters, since their results are
outside the program text.
-/

namespace Msgbox

/-! ## Constants from the source

`SOCK_STREAM`/`SOCK_DGRAM` are the Linux values; `msgbox.c` ends with
`const int msg_tcp = SOCK_STREAM; const int msg_udp = SOCK_DGRAM;`. -/

def SOCK_STREAM : Nat := 1

def SOCK_DGRAM : Nat := 2

def msg_tcp : Nat := SOCK_STREAM

def msg_udp : Nat := SOCK_DGRAM

/-- Model of `#define header_len 8` -/
def header_len : Nat := 8

/-- Model of `#define recv_buffer_len 32768` -/
def recv_buffer_len : Nat := 32768

/-! ## Message-type enum (values for `message_type`)

`enum { one_way, request, reply, heartbeat, close };` — C default
numbering gives 0,1,2,3,4. -/

def one_way : Nat := 0

def request : Nat := 1

def reply : Nat := 2

def heartbeat : Nat := 3

def close : Nat := 4

/-- Event kinds delivered to user callbacks (`msg_Event`, from `msgbox.h`;
exactly the members `msgbox.c` uses). -/
inductive MsgEvent where
  | msg_error
  | msg_listening
  | msg_connection_ready
  | msg_message
  | msg_request
  | msg_reply
deriving DecidableEq, Repr

export MsgEvent (msg_error msg_listening msg_connection_ready msg_message msg_request msg_reply)

/-! ## Wire codec

`Header` is four `uint16_t` fields; on the wire each is in network
(big-endian) byte order.  `htons` on a 16-bit value stored to memory is
the 2-byte big-endian encoding; `ntohs` of 2 received bytes is the
big-endian decode. -/

structure Header where
  message_type : Nat
  num_packets : Nat
  packet_id : Nat
  reply_id : Nat
deriving DecidableEq, Repr

/-- Big-endian byte pair of a 16-bit value (what `htons` + store yields).
The `% 256` on the high byte realises the `uint16_t` truncation of the C
parameters. -/
def enc16 (x : Nat) : List Nat := [x / 256 % 256, x % 256]

/-- Big-endian decode of a received byte pair (what load + `ntohs` yields). -/
def dec16 (hi lo : Nat) : Nat := hi * 256 + lo

/-- Model of `msg_Data`: a payload buffer whose underlying allocation starts
`header_len` bytes before `bytes`.  `hdrRegion` is that reserved 8-byte
region; `bytes` is the logical payload.  `allocId` records which tracked
receive-buffer allocation (if any) the bytes point into — the model of
C pointer provenance (`bytes - header_len` is the malloc'd block). -/
structure MsgData where
  hdrRegion : List Nat
  bytes : List Nat
  allocId : Option Nat := none
deriving DecidableEq, Repr

/-- Model of `static msg_Data msg_no_data = { .num_bytes = 0, .bytes = NULL };` -/
def msg_no_data : MsgData := { hdrRegion := [], bytes := [] }

/-- Model of `set_header(data, msg_type, num_packets, packet_id, reply_id)`:
writes the four `htons`-converted fields over the 8 bytes preceding
`data.bytes` (`Header *header = (Header *)(data.bytes - header_len)`).
The payload bytes are untouched. -/
def set_header (data : MsgData) (msg_type num_packets packet_id reply_id : Nat) : MsgData :=
  { data with
    hdrRegion := enc16 msg_type ++ enc16 num_packets ++ enc16 packet_id ++ enc16 reply_id }

/-- The pure decode step of `read_header`: given the 8 peeked bytes,
convert each 16-bit slot from network to host order
(`for (i...) buffer[i] = ntohs(buffer[i])`). -/
def decode_header (b : List Nat) : Header :=
  { message_type := dec16 (b.getD 0 0) (b.getD 1 0)
    num_packets := dec16 (b.getD 2 0) (b.getD 3 0)
    packet_id := dec16 (b.getD 4 0) (b.getD 5 0)
    reply_id := dec16 (b.getD 6 0) (b.getD 7 0) }

/-! ## Connection objects, peer registry and reactor state -/

/-- Model of `AF_INET` (Linux value). -/
def AF_INET : Nat := 2

/-- Model of `msg_Conn`: per-socket state (fields of the struct that `msgbox.c`
reads or writes).  `new_connection` zeroes the whole struct. -/
structure Conn where
  socket : Nat
  protocol_type : Nat
  remote_ip : Nat
  remote_port : Nat
  reply_id : Nat
  for_listening : Bool
deriving DecidableEq, Repr

/-- Model of `new_connection`: `malloc` + `memset(conn, 0, ...)` — every field 0. -/
def new_connection : Conn :=
  { socket := 0, protocol_type := 0, remote_ip := 0, remote_port := 0,
    reply_id := 0, for_listening := false }

/-- Model of `Address`: the (remote ip, remote port, protocol) key of the
connection-status map. -/
structure Address where
  ip : Nat
  port : Nat
  protocol_type : Nat
deriving DecidableEq, Repr

/-- Model of `ConnStatus`: the `last_seen_at` bookkeeping value.  In C it is a
`double` that is only ever set to the sentinel `0.0` and never read; the
model keeps it as a write-only `Nat`. -/
structure ConnStatus where
  last_seen_at : Nat
deriving DecidableEq, Repr

/-- A heap allocation handed to a pending call as its `to_free` slot:
either the `msg_Conn` object itself (setup-error paths) or a tracked
`malloc(recv_buffer_len)` receive buffer, identified by id. -/
inductive Alloc where
  | connObj : Conn → Alloc
  | recvBuffer : Nat → Alloc
deriving DecidableEq, Repr

/-- Model of `PendingCall`: a queued callback invocation. -/
structure PendingCall where
  conn : Conn
  event : MsgEvent
  data : MsgData
  to_free : Option Alloc
deriving DecidableEq, Repr

/-- Model of `struct sockaddr_in` as the code fills it in. -/
structure SockaddrIn where
  sin_family : Nat
  sin_port : Nat
  sin_ip : Nat
deriving DecidableEq, Repr

/-- OS calls performed by `open_socket`/`setup_sockaddr`, recorded as a
trace so ordering claims can be stated. -/
inductive SysCall where
  | sys_socket (domain ty protocol : Nat)
  | parse_addr (address : String)
  | sys_bind (fd : Nat)
  | sys_connect (fd : Nat)
deriving DecidableEq, Repr

/-- The reactor's global mutable state: the pending-callback array, the
parallel `poll_fds`/`conns` arrays, the `conn_status` map, and the set of
live (not yet freed) receive-buffer allocations with the next fresh id.
`init_if_needed` yields the state with all of these empty. -/
structure MState where
  immediate_callbacks : List PendingCall
  poll_fds : List Nat
  conns : List Conn
  conn_status : List (Address × ConnStatus)
  liveBuffers : List Nat
  nextBuffer : Nat
deriving DecidableEq, Repr

/-- The freshly initialized globals (`init_if_needed`). -/
def init_state : MState :=
  { immediate_callbacks := [], poll_fds := [], conns := [],
    conn_status := [], liveBuffers := [], nextBuffer := 0 }

/-- Bytes of a C string (used by `msg_new_data(str)`; `strcpy` copies the
characters, and the allocation includes the trailing NUL). -/
def strBytes (s : String) : List Nat := s.toUTF8.toList.map (fun b => b.toNat)

/-- Model of `msg_new_data_space(num_bytes)`: malloc of `num_bytes + header_len`
with the logical view starting after the (uninitialized) header region. -/
def msg_new_data_space (num_bytes : Nat) : MsgData :=
  { hdrRegion := List.replicate header_len 0, bytes := List.replicate num_bytes 0 }

/-- Model of `msg_new_data(str)`: fresh buffer holding the string plus NUL. -/
def msg_new_data (s : String) : MsgData :=
  { hdrRegion := List.replicate header_len 0, bytes := strBytes s ++ [0] }

/-- Model of `send_callback`: append one `PendingCall` to `immediate_callbacks`. -/
def send_callback (st : MState) (conn : Conn) (event : MsgEvent) (data : MsgData)
    (to_free : Option Alloc) : MState :=
  { st with immediate_callbacks :=
      st.immediate_callbacks ++ [{ conn := conn, event := event, data := data, to_free := to_free }] }

/-- Model of `send_callback_error`: an `msg_error` event carrying the message text. -/
def send_callback_error (st : MState) (conn : Conn) (msg : String)
    (to_free : Option Alloc) : MState :=
  send_callback st conn msg_error (msg_new_data msg) to_free

/-- Model of `send_callback_os_error`: `snprintf(err_msg, 1024, "%s: %s", msg,
strerror(errno))` — the static description joined with the system error
text (`errnoText` stands for `strerror(errno)`). -/
def send_callback_os_error (st : MState) (conn : Conn) (msg : String) (errnoText : String)
    (to_free : Option Alloc) : MState :=
  send_callback_error st conn (msg ++ ": " ++ errnoText) to_free

/-- Model of `remove_last_polling_conn`: drop the last element of both `conns`
and `poll_fds`. -/
def remove_last_polling_conn (st : MState) : MState :=
  { st with conns := st.conns.dropLast, poll_fds := st.poll_fds.dropLast }

/-- Whether `conn_status` already has an entry for `a` (`CMapFind`). -/
def statusHas (st : MState) (a : Address) : Bool :=
  (st.conn_status.find? (fun p => p.1 = a)).isSome

/-- Model of `remote_address_seen(conn, sockaddr)`: build the Address key from the
sockaddr's ip and the conn's port/protocol; if already in `conn_status`
do nothing (the timing update is a TODO in the source), else insert a
fresh status and enqueue a `msg_connection_ready` event. -/
def remote_address_seen (st : MState) (conn : Conn) (sockaddr_ip : Nat) : MState :=
  let address : Address :=
    { ip := sockaddr_ip, port := conn.remote_port, protocol_type := conn.protocol_type }
  if statusHas st address then
    st
  else
    let st := { st with conn_status := st.conn_status ++ [(address, { last_seen_at := 0 })] }
    send_callback st conn msg_connection_ready msg_no_data none

/-! ## Address parsing and socket setup -/

/-- Model of `parse_address_str(address, conn)`.  The protocol-prefix dispatch
(`strncmp` against `"tcp://"` / `"udp://"`) is translated from the
source.  The numeric ip/port parsing is done by the libc routines
`inet_aton`/`strtol` (and is declared out of scope by the spec), so its
outcome is passed in as `ipPortOut`: `.error e` models any of the
ip/port failure exits, `.ok (ip, port)` the successfully parsed values.
Returns the updated conn or an error string. -/
def parse_address_str (address : String) (ipPortOut : Except String (Nat × Nat))
    (conn : Conn) : Except String Conn :=
  -- strncmp(address, tcp_prefix, 6) == 0, char for char
  if address.toList.take 6 = "tcp://".toList then
    let conn := { conn with protocol_type := SOCK_STREAM }
    match ipPortOut with
    | .error e => .error e
    | .ok (ip, port) => .ok { conn with remote_ip := ip, remote_port := port }
  else if address.toList.take 6 = "udp://".toList then
    let conn := { conn with protocol_type := SOCK_DGRAM }
    match ipPortOut with
    | .error e => .error e
    | .ok (ip, port) => .ok { conn with remote_ip := ip, remote_port := port }
  else
    .error ("Failing due to unrecognized prefix: " ++ address)

/-- Model of `setup_sockaddr(sockaddr, address, conn)`.  `sockOut` is the outcome
of the `socket(AF_INET, SOCK_DGRAM, 0)` call (`none` = failure, `some
fd` = the descriptor); `errnoText` stands for `strerror(errno)`.
Returns the new state, `some (conn, sockaddr)` on success / `none` on a
scheduled error callback, and the trace of calls performed.  On success
the conn and its polling fd are registered in `conns`/`poll_fds`; since
`conns` stores a pointer, the stored entry reflects the mutations
`parse_address_str` made through it. -/
def setup_sockaddr (st : MState) (address : String) (conn : Conn)
    (sockOut : Option Nat) (ipPortOut : Except String (Nat × Nat)) (errnoText : String) :
    MState × Option (Conn × SockaddrIn) × List SysCall :=
  let trace := [SysCall.sys_socket AF_INET SOCK_DGRAM 0]
  match sockOut with
  | none =>
    (send_callback_os_error st conn "socket" errnoText (some (Alloc.connObj conn)), none, trace)
  | some sock =>
    let conn := { conn with socket := sock }
    let st := { st with conns := st.conns ++ [conn], poll_fds := st.poll_fds ++ [sock] }
    let trace := trace ++ [SysCall.parse_addr address]
    match parse_address_str address ipPortOut conn with
    | .error e =>
      let st := remove_last_polling_conn st
      (send_callback_error st conn e (some (Alloc.connObj conn)), none, trace)
    | .ok conn =>
      -- pointer aliasing: the registered entry is the mutated conn
      let st := { st with conns := st.conns.dropLast ++ [conn] }
      let sockaddr : SockaddrIn :=
        { sin_family := AF_INET, sin_port := conn.remote_port, sin_ip := conn.remote_ip }
      (st, some (conn, sockaddr), trace)

/-- Model of `open_socket(address, conn_context, callback, for_listening)`.
`openOk` is the outcome of the role-specific `bind`/`connect` call. -/
def open_socket (st : MState) (address : String) (for_listening : Bool)
    (sockOut : Option Nat) (ipPortOut : Except String (Nat × Nat)) (openOk : Bool)
    (errnoText : String) : MState × List SysCall :=
  let conn := { new_connection with for_listening := for_listening }
  match setup_sockaddr st address conn sockOut ipPortOut errnoText with
  | (st, none, trace) => (st, trace)
  | (st, some (conn, sockaddr), trace) =>
    let trace := trace ++
      [if for_listening then SysCall.sys_bind conn.socket else SysCall.sys_connect conn.socket]
    if !openOk then
      let st := send_callback_os_error st conn "bind" errnoText (some (Alloc.connObj conn))
      (remove_last_polling_conn st, trace)
    else if for_listening then
      (send_callback st conn msg_listening msg_no_data none, trace)
    else
      (remote_address_seen st conn sockaddr.sin_ip, trace)

/-- The socket types of the `socket()` calls in a trace. -/
def socketTypesIn (trace : List SysCall) : List Nat :=
  trace.filterMap fun c =>
    match c with
    | SysCall.sys_socket _ ty _ => some ty
    | _ => none

/-! ## The read path -/

/-- The `switch (header.message_type)` of `read_from_socket`: only
`one_way`, `request` and `reply` have cases; everything else reaches
`assert(0)` (`none`). -/
def classify_message_type (message_type : Nat) : Option MsgEvent :=
  if message_type = one_way then some msg_message
  else if message_type = request then some msg_request
  else if message_type = reply then some msg_reply
  else none

/-- Model of `read_from_socket(sock, conn)`.  `peek` is the outcome of the
header `recv(..., MSG_PEEK)` (`none` = failure, `some b` = the 8 raw
bytes); `recvOut` is the outcome of the frame `recvfrom` (`none` =
failure, `some (raw, srcIp, srcPort)` = received bytes plus the remote
sockaddr, port already host order); `errnoText` stands for
`strerror(errno)`.  Result `none` models a reached `assert(0)`;
otherwise the new state and the (possibly mutated) conn. -/
def read_from_socket (st : MState) (conn : Conn) (peek : Option (List Nat))
    (recvOut : Option (List Nat × Nat × Nat)) (errnoText : String) :
    Option (MState × Conn) :=
  -- read_header: peek the 8 header bytes, ntohs each field,
  -- store reply_id on the conn; on recv failure send an os error.
  match peek with
  | none => some (send_callback_os_error st conn "recv" errnoText none, conn)
  | some raw =>
    let header := decode_header raw
    let conn := { conn with reply_id := header.reply_id }
    match classify_message_type header.message_type with
    | none => none  -- assert(0): unhandled message type
    | some event =>
      if header.num_packets = 1 then
        -- char *buffer = malloc(recv_buffer_len);
        let bufId := st.nextBuffer
        let st := { st with liveBuffers := st.liveBuffers ++ [bufId],
                            nextBuffer := st.nextBuffer + 1 }
        match recvOut with
        | none => some (send_callback_os_error st conn "recvfrom" errnoText none, conn)
        | some (raw, srcIp, srcPort) =>
          let data : MsgData :=
            { hdrRegion := raw.take header_len, bytes := raw.drop header_len,
              allocId := some bufId }
          let conn := { conn with remote_ip := srcIp, remote_port := srcPort }
          let st := remote_address_seen st conn srcIp
          some (send_callback st conn event data none, conn)
      else
        none  -- assert(0): multi-packet case unimplemented

/-! ## The dispatch phase of `msg_runloop`

`msg_runloop` swaps `immediate_callbacks` for a fresh array, then walks
the saved array invoking each callback and freeing its `to_free`.  A
user callback may itself enqueue pending calls (any entry point that
calls `send_callback` does); `handler c` gives the list of calls the
callback of `c` enqueues during its invocation. -/

/-- One pass of `CArrayFor(PendingCall *, call, saved_immediate_callbacks)`:
`remaining` is what is left of the saved array, `invoked` the calls
already invoked (in order), `newQ` the fresh `immediate_callbacks`
filled by re-entrant `send_callback`s, `live` the still-allocated
receive buffers (`free(call->to_free)` releases a tracked buffer). -/
def flush_go (handler : PendingCall → List PendingCall) :
    List PendingCall → List PendingCall → List PendingCall → List Nat →
    List PendingCall × List PendingCall × List Nat
  | [], invoked, newQ, live => (invoked, newQ, live)
  | c :: rest, invoked, newQ, live =>
    let live :=
      match c.to_free with
      | some (Alloc.recvBuffer i) => live.erase i
      | _ => live
    flush_go handler rest (invoked ++ [c]) (newQ ++ handler c) live

/-- The dispatch phase of one `msg_runloop` tick: swap the queue for a
fresh one, then flush the saved queue.  Returns the post-tick state and
the sequence of calls invoked during this flush. -/
def msg_runloop_dispatch (handler : PendingCall → List PendingCall) (st : MState) :
    MState × List PendingCall :=
  let saved := st.immediate_callbacks
  let r := flush_go handler saved [] [] st.liveBuffers
  ({ st with immediate_callbacks := r.2.1, liveBuffers := r.2.2 }, r.1)

/-! ## The send path -/

/-- Model of `set_sockaddr_for_conn(sockaddr, conn)`: always succeeds
(returns `no_error`), filling the sockaddr from the conn's remote
endpoint. -/
def set_sockaddr_for_conn (conn : Conn) : SockaddrIn × Option String :=
  ({ sin_family := AF_INET, sin_port := conn.remote_port, sin_ip := conn.remote_ip }, none)

/-- Which transmission call `msg_send` used. -/
inductive SendPath where
  | viaSend
  | viaSendto (dest : SockaddrIn)
deriving DecidableEq, Repr

/-- Model of `msg_send(conn, data)`: set the one-way header, then `sendto` to the
conn's remote sockaddr when the conn is a listening UDP socket,
otherwise plain `send`; either way the wire bytes are
`data.bytes - header_len` for `data.num_bytes + header_len` bytes, i.e.
header region followed by payload.  `none` models the (dead)
`send_callback_error` exit of the sendto branch. -/
def msg_send (conn : Conn) (data : MsgData) : Option (MsgData × SendPath × List Nat) :=
  let data := set_header data one_way 1 0 0
  if conn.protocol_type = msg_udp ∧ conn.for_listening then
    let r := set_sockaddr_for_conn conn
    match r.2 with
    | some _ => none
    | none => some (data, SendPath.viaSendto r.1, data.hdrRegion ++ data.bytes)
  else
    some (data, SendPath.viaSend, data.hdrRegion ++ data.bytes)

/-! ## Empty-bodied public entry points -/

/-- Model of `void msg_unlisten(msg_Conn *conn) {}` -/
def msg_unlisten (conn : Conn) (st : MState) : MState := st

/-- Model of `void msg_get(msg_Conn *conn, msg_Data data, void *reply_context) {}` -/
def msg_get (conn : Conn) (data : MsgData) (reply_context : Option Nat) (st : MState) :
    MState := st

/-! ## Derived notions used to state the claims -/

/-- The peer key an observation builds: the sockaddr's ip with the
conn's port and protocol. -/
def tripleOf (conn : Conn) (ip : Nat) : Address :=
  { ip := ip, port := conn.remote_port, protocol_type := conn.protocol_type }

/-- How many `msg_connection_ready` events one `remote_address_seen`
call enqueues. -/
def readyEmitted (st : MState) (conn : Conn) (ip : Nat) : Nat :=
  (remote_address_seen st conn ip).immediate_callbacks.length - st.immediate_callbacks.length

/-- Total `msg_connection_ready` events enqueued for the triple `a`
across a run of `remote_address_seen` observations. -/
def runReadyCount (st : MState) (a : Address) : List (Conn × Nat) → Nat
  | [] => 0
  | (conn, ip) :: rest =>
    (if tripleOf conn ip = a then readyEmitted st conn ip else 0)
    + runReadyCount (remote_address_seen st conn ip) a rest

/-- The pending calls a step added to the queue (the queue only grows
outside the dispatch phase). -/
def newCallsOf (st st2 : MState) : List PendingCall :=
  st2.immediate_callbacks.drop st.immediate_callbacks.length

/-- The reactor state after one `open_socket` call (first component of
`open_socket`, named for readability of statements). -/
def open_socket_state (st : MState) (address : String) (for_listening : Bool)
    (sockOut : Option Nat) (ipPortOut : Except String (Nat × Nat)) (openOk : Bool)
    (errnoText : String) : MState :=
  (open_socket st address for_listening sockOut ipPortOut openOk errnoText).1

/-- The dichotomy claimed for `open_socket` by the specification, in the
spec's own words: either the connection is left in the registered set
with a listening or connection-ready event enqueued, or it is absent
from the registered set with exactly one error event enqueued — exactly
one of the two.  (This definition follows the spec text, for comparison
with the behaviour of `open_socket` as translated from the source.) -/
def open_socket_claimed_dichotomy (st st2 : MState) : Bool :=
  let newCalls := newCallsOf st st2
  let success :=
    decide (st2.conns.length = st.conns.length + 1) &&
    decide (st2.poll_fds.length = st.poll_fds.length + 1) &&
    newCalls.any (fun c => c.event == msg_listening || c.event == msg_connection_ready)
  let failure :=
    decide (st2.conns = st.conns) && decide (st2.poll_fds = st.poll_fds) &&
    decide ((newCalls.filter (fun c => c.event == msg_error)).length = 1)
  success.xor failure

/-! ## Theorems -/

/-- C2: For every payload P and header fields (messageType, numPackets=1,
packetId=0, replyId), writing the header with `set_header` and decoding
the 8 header bytes with network-to-host conversion (as `read_header`
does) reproduces exactly the same four field values, and the bytes of P
are unchanged by the encode. -/
theorem frame_header_roundtrip (data : MsgData) (t r : Nat)
    (ht : t < 65536) (hr : r < 65536) :
    (decode_header (set_header data t 1 0 r).hdrRegion).message_type = t ∧
    (decode_header (set_header data t 1 0 r).hdrRegion).num_packets = 1 ∧
    (decode_header (set_header data t 1 0 r).hdrRegion).packet_id = 0 ∧
    (decode_header (set_header data t 1 0 r).hdrRegion).reply_id = r ∧
    (set_header data t 1 0 r).bytes = data.bytes := by
  refine ⟨?_, ?_, ?_, ?_, rfl⟩ <;>
    simp [set_header, decode_header, enc16, dec16] <;> omega

/-- Witness for C2 at a concrete payload ("hi" bytes) and fields. -/
theorem frame_header_roundtrip_witness :
    (2 : Nat) < 65536 ∧ (40000 : Nat) < 65536 ∧
    ((decode_header (set_header ⟨List.replicate 8 0, [104, 105], none⟩ 2 1 0 40000).hdrRegion).message_type = 2 ∧
     (decode_header (set_header ⟨List.replicate 8 0, [104, 105], none⟩ 2 1 0 40000).hdrRegion).num_packets = 1 ∧
     (decode_header (set_header ⟨List.replicate 8 0, [104, 105], none⟩ 2 1 0 40000).hdrRegion).packet_id = 0 ∧
     (decode_header (set_header ⟨List.replicate 8 0, [104, 105], none⟩ 2 1 0 40000).hdrRegion).reply_id = 40000 ∧
     (set_header ⟨List.replicate 8 0, [104, 105], none⟩ 2 1 0 40000).bytes = [104, 105]) :=
  ⟨by decide, by decide,
    frame_header_roundtrip ⟨List.replicate 8 0, [104, 105], none⟩ 2 40000 (by decide) (by decide)⟩

/-- Unfolding of `flush_go`: the invoked sequence is the saved queue in
order, and the fresh queue collects exactly the re-entrant enqueues. -/
theorem flush_go_spec (handler : PendingCall → List PendingCall)
    (rem inv newQ : List PendingCall) (live : List Nat) :
    (flush_go handler rem inv newQ live).1 = inv ++ rem ∧
    (flush_go handler rem inv newQ live).2.1 = newQ ++ rem.flatMap handler := by
  induction rem generalizing inv newQ live with
  | nil => simp [flush_go]
  | cons c rest ih =>
    simp only [flush_go, List.flatMap_cons]
    rcases ih (inv ++ [c]) (newQ ++ handler c)
      (match c.to_free with
       | some (Alloc.recvBuffer i) => live.erase i
       | _ => live) with ⟨h1, h2⟩
    constructor
    · rw [h1]; simp
    · rw [h2]; simp

/-- C4: During the dispatch phase of one `msg_runloop` tick, queued
callbacks are invoked in FIFO insertion order and each pending call is
consumed exactly once (the invoked sequence is precisely the queue at
flush start); any call enqueued from inside a callback running in that
flush lands in the fresh queue, is never invoked during the same flush,
and is exactly what the next tick's flush invokes. -/
theorem dispatch_fifo_and_reentrancy (handler : PendingCall → List PendingCall) (st : MState) :
    (msg_runloop_dispatch handler st).2 = st.immediate_callbacks ∧
    (msg_runloop_dispatch handler st).1.immediate_callbacks =
      st.immediate_callbacks.flatMap handler ∧
    (msg_runloop_dispatch handler (msg_runloop_dispatch handler st).1).2 =
      st.immediate_callbacks.flatMap handler := by
  have h1 := flush_go_spec handler st.immediate_callbacks [] [] st.liveBuffers
  refine ⟨by simp [msg_runloop_dispatch, h1.1], by simp [msg_runloop_dispatch, h1.2], ?_⟩
  have h2 := flush_go_spec handler
    (msg_runloop_dispatch handler st).1.immediate_callbacks [] []
    (msg_runloop_dispatch handler st).1.liveBuffers
  simp only [msg_runloop_dispatch] at h2 ⊢
  rw [h2.1, h1.2]
  simp

/-- C10: `msg_unlisten` and `msg_get` have empty bodies: for every
connection, data and state they perform no operation and leave the
registered set, the peer registry and the pending-call queue unchanged. -/
theorem unlisten_and_get_are_noops (conn : Conn) (data : MsgData) (rc : Option Nat)
    (st : MState) :
    msg_unlisten conn st = st ∧ msg_get conn data rc st = st :=
  ⟨rfl, rfl⟩

/-- C8: `msg_send` writes the header fields (one-way, numPackets = 1,
packetId = 0, replyId = 0) into the payload's reserved region, transmits
header region followed by payload, and takes the `sendto` path exactly
when the connection is a UDP (datagram) connection in the listening
role, the plain `send` path otherwise. -/
theorem msg_send_spec (conn : Conn) (data : MsgData) :
    msg_send conn data = some (set_header data one_way 1 0 0,
      (if conn.protocol_type = msg_udp ∧ conn.for_listening then
        SendPath.viaSendto
          { sin_family := AF_INET, sin_port := conn.remote_port, sin_ip := conn.remote_ip }
       else SendPath.viaSend),
      (set_header data one_way 1 0 0).hdrRegion ++ (set_header data one_way 1 0 0).bytes) ∧
    decode_header (set_header data one_way 1 0 0).hdrRegion =
      { message_type := one_way, num_packets := 1, packet_id := 0, reply_id := 0 } ∧
    (set_header data one_way 1 0 0).bytes = data.bytes := by
  refine ⟨?_, ?_, rfl⟩
  · by_cases h : conn.protocol_type = msg_udp ∧ conn.for_listening <;>
      simp [msg_send, set_sockaddr_for_conn, h]
  · simp [set_header, decode_header, enc16, dec16, one_way]

/-- The syscall trace of `setup_sockaddr`: the `socket(AF_INET,
SOCK_DGRAM, 0)` call always comes first, and the address is parsed (if
at all) only afterwards. -/
theorem setup_sockaddr_trace (st : MState) (address : String) (conn : Conn)
    (sockOut : Option Nat) (ipPortOut : Except String (Nat × Nat)) (errnoText : String) :
    (setup_sockaddr st address conn sockOut ipPortOut errnoText).2.2 =
      SysCall.sys_socket AF_INET SOCK_DGRAM 0 ::
        (match sockOut with
         | none => []
         | some _ => [SysCall.parse_addr address]) := by
  unfold setup_sockaddr
  cases sockOut with
  | none => rfl
  | some sock =>
    dsimp only
    split <;> rfl

/-- C9: every trace of `open_socket` begins with the
`socket(AF_INET, SOCK_DGRAM, 0)` call — performed before the address's
protocol prefix is parsed — and the only socket type ever created is
`SOCK_DGRAM`, for every address specification (the `tcp://` ones
included); `SOCK_DGRAM` is not `SOCK_STREAM`, so no stream socket is
ever created. -/
theorem open_socket_always_datagram (st : MState) (address : String) (for_listening : Bool)
    (sockOut : Option Nat) (ipPortOut : Except String (Nat × Nat)) (openOk : Bool)
    (errnoText : String) :
    socketTypesIn (open_socket st address for_listening sockOut ipPortOut openOk errnoText).2 =
      [SOCK_DGRAM] ∧
    (open_socket st address for_listening sockOut ipPortOut openOk errnoText).2.head? =
      some (SysCall.sys_socket AF_INET SOCK_DGRAM 0) ∧
    SOCK_DGRAM ≠ SOCK_STREAM := by
  refine ⟨?_, ?_, by decide⟩ <;>
  · have hs := setup_sockaddr_trace st address
      { new_connection with for_listening := for_listening } sockOut ipPortOut errnoText
    unfold open_socket
    dsimp only
    rcases hsetup : setup_sockaddr st address
        { new_connection with for_listening := for_listening } sockOut ipPortOut errnoText
      with ⟨st1, ores, trace⟩
    rw [hsetup] at hs
    simp only at hs
    rcases ores with _ | ⟨conn, sockaddr⟩ <;>
      rcases sockOut with _ | sock <;> simp only at hs <;>
      cases openOk <;> cases for_listening <;>
      simp [hs, socketTypesIn]

/-- Finding a key in an association list extended by one pair on the right. -/
theorem find_isSome_append_singleton (l : List (Address × ConnStatus))
    (x : Address × ConnStatus) (a : Address) :
    ((l ++ [x]).find? (fun p => decide (p.1 = a))).isSome =
      ((l.find? (fun p => decide (p.1 = a))).isSome || decide (x.1 = a)) := by
  induction l with
  | nil => by_cases hx : x.1 = a <;> simp [List.find?, hx]
  | cons p rest ih =>
    by_cases hp : p.1 = a <;> by_cases hx : x.1 = a <;>
      simp [List.find?, hp, hx] at ih ⊢

/-- Membership in `conn_status` after one observation: the observed
triple is now present, everything else is exactly as before. -/
theorem statusHas_remote (st : MState) (conn : Conn) (ip : Nat) (a : Address) :
    statusHas (remote_address_seen st conn ip) a =
      (statusHas st a || decide (tripleOf conn ip = a)) := by
  simp only [remote_address_seen, statusHas, tripleOf, send_callback]
  split
  · rename_i h
    by_cases ha : ({ ip := ip, port := conn.remote_port, protocol_type := conn.protocol_type } :
        Address) = a
    · subst ha
      simp_all
    · simp [ha]
  · rename_i h
    simp only
    rw [find_isSome_append_singleton]

/-- One `remote_address_seen` call enqueues one `msg_connection_ready`
event when the triple is unseen, none when it is already known. -/
theorem readyEmitted_eq (st : MState) (conn : Conn) (ip : Nat) :
    readyEmitted st conn ip = if statusHas st (tripleOf conn ip) then 0 else 1 := by
  simp only [readyEmitted, remote_address_seen, statusHas, tripleOf, send_callback]
  split <;> rename_i h <;> simp [h]

/-- Once a triple is in the registry, a run of further observations
enqueues no `msg_connection_ready` event for it. -/
theorem runReadyCount_zero (st : MState) (a : Address) (obs : List (Conn × Nat))
    (h : statusHas st a = true) : runReadyCount st a obs = 0 := by
  induction obs generalizing st with
  | nil => rfl
  | cons o rest ih =>
    rcases o with ⟨conn, ip⟩
    unfold runReadyCount
    have h2 : statusHas (remote_address_seen st conn ip) a = true := by
      rw [statusHas_remote, h, Bool.true_or]
    rw [ih _ h2]
    split
    · rename_i heq
      rw [readyEmitted_eq, heq, h]
      rfl
    · rfl

/-- C3: in every run of `remote_address_seen` observations starting with
the triple `a` unregistered, if `a` is observed at least once then
exactly one `msg_connection_ready` event is enqueued for `a` across the
whole run — every observation of `a` after the first enqueues none. -/
theorem peer_dedup (st : MState) (a : Address) (obs : List (Conn × Nat))
    (hnew : statusHas st a = false)
    (hocc : ∃ o ∈ obs, tripleOf o.1 o.2 = a) :
    runReadyCount st a obs = 1 := by
  induction obs generalizing st with
  | nil => simp at hocc
  | cons o rest ih =>
    rcases o with ⟨conn, ip⟩
    unfold runReadyCount
    by_cases htr : tripleOf conn ip = a
    · have hafter : statusHas (remote_address_seen st conn ip) a = true := by
        rw [statusHas_remote, htr]
        simp
      rw [runReadyCount_zero _ _ _ hafter, if_pos htr, readyEmitted_eq, htr, hnew]
      rfl
    · rw [if_neg htr]
      have hocc2 : ∃ o ∈ rest, tripleOf o.1 o.2 = a := by
        rcases hocc with ⟨o, ho, he⟩
        rcases List.mem_cons.mp ho with rfl | hmem
        · exact absurd he htr
        · exact ⟨o, hmem, he⟩
      have hnew2 : statusHas (remote_address_seen st conn ip) a = false := by
        rw [statusHas_remote, hnew]
        simp [htr]
      rw [ih _ hnew2 hocc2]

/-- Witness for C3: two frames from the same (ip 5, port 7, UDP) triple
yield exactly one ready event. -/
theorem peer_dedup_witness :
    statusHas init_state { ip := 5, port := 7, protocol_type := 2 } = false ∧
    (∃ o ∈ [({ new_connection with remote_port := 7, protocol_type := 2 }, 5),
            ({ new_connection with remote_port := 7, protocol_type := 2 }, 5)],
       tripleOf o.1 o.2 = { ip := 5, port := 7, protocol_type := 2 }) ∧
    runReadyCount init_state { ip := 5, port := 7, protocol_type := 2 }
      [({ new_connection with remote_port := 7, protocol_type := 2 }, 5),
       ({ new_connection with remote_port := 7, protocol_type := 2 }, 5)] = 1 :=
  ⟨by decide, by decide, peer_dedup _ _ _ (by decide) (by decide)⟩

/-- C5 counterexample: heartbeat is one of the five declared kinds, and
numPackets = 1, yet `read_from_socket` reaches `assert(0)` (its switch
handles only one-way/request/reply), refuting the claim that the assert
branches are unreachable for all recognized types. -/
theorem read_heartbeat_asserts :
    (decode_header [0, 3, 0, 1, 0, 0, 0, 0]).message_type = heartbeat ∧
    (decode_header [0, 3, 0, 1, 0, 0, 0, 0]).num_packets = 1 ∧
    read_from_socket init_state new_connection (some [0, 3, 0, 1, 0, 0, 0, 0]) none "e" =
      none := by
  refine ⟨by decide, by decide, ?_⟩
  decide

/-- C5 (amended): the read path classifies a decoded messageType into
one of the three handled kinds {one-way, request, reply}; under the
precondition that the type is one of those three and numPackets = 1 the
assert branches are unreachable (whatever the receive outcomes), while
a type outside the handled set — heartbeat and close included — or a
frame with numPackets ≠ 1 is a fatal assertion-style stop, never a
silent drop. -/
theorem read_classification (st : MState) (conn : Conn) (raw : List Nat)
    (recvOut : Option (List Nat × Nat × Nat)) (errnoText : String) :
    (((decode_header raw).message_type = one_way ∨
      (decode_header raw).message_type = request ∨
      (decode_header raw).message_type = reply) ∧ (decode_header raw).num_packets = 1 →
        (read_from_socket st conn (some raw) recvOut errnoText).isSome = true) ∧
    (¬((decode_header raw).message_type = one_way ∨
       (decode_header raw).message_type = request ∨
       (decode_header raw).message_type = reply) →
        read_from_socket st conn (some raw) recvOut errnoText = none) ∧
    (((decode_header raw).message_type = one_way ∨
      (decode_header raw).message_type = request ∨
      (decode_header raw).message_type = reply) ∧ (decode_header raw).num_packets ≠ 1 →
        read_from_socket st conn (some raw) recvOut errnoText = none) := by
  refine ⟨?_, ?_, ?_⟩
  · rintro ⟨ht, hnp⟩
    rcases ht with h | h | h <;>
      rcases recvOut with _ | ⟨rawf, srcIp, srcPort⟩ <;>
      simp [read_from_socket, classify_message_type, one_way, request, reply, h, hnp]
  · intro ht
    push_neg at ht
    simp only [one_way, request, reply] at ht
    simp [read_from_socket, classify_message_type, one_way, request, reply,
      ht.1, ht.2.1, ht.2.2]
  · rintro ⟨ht, hnp⟩
    rcases ht with h | h | h <;>
      simp [read_from_socket, classify_message_type, one_way, request, reply, h, hnp]

/-- Witness for C5 at a concrete one-way single-packet frame. -/
theorem read_classification_witness :
    (((decode_header [0, 0, 0, 1, 0, 0, 0, 0]).message_type = one_way ∨
      (decode_header [0, 0, 0, 1, 0, 0, 0, 0]).message_type = request ∨
      (decode_header [0, 0, 0, 1, 0, 0, 0, 0]).message_type = reply) ∧
     (decode_header [0, 0, 0, 1, 0, 0, 0, 0]).num_packets = 1) ∧
    (read_from_socket init_state new_connection (some [0, 0, 0, 1, 0, 0, 0, 0])
      (some ([0, 0, 0, 1, 0, 0, 0, 0, 104, 105], 9, 9)) "e").isSome = true :=
  ⟨⟨by decide, by decide⟩,
    (read_classification init_state new_connection [0, 0, 0, 1, 0, 0, 0, 0]
      (some ([0, 0, 0, 1, 0, 0, 0, 0, 104, 105], 9, 9)) "e").1 ⟨by decide, by decide⟩⟩

/-- C6 evaluated at the failing input: one one-way frame is received
(buffer id 0 is allocated and delivered to the queued `msg_message`
call with `to_free = NULL`), the dispatch flush invokes both queued
calls, and after the flush the receive buffer is still allocated — the
dispatcher frees only `to_free`, which the receive path never sets, so
the delivered payload's owning allocation is leaked rather than freed. -/
theorem recv_buffer_not_freed :
    (read_from_socket init_state new_connection (some [0, 0, 0, 1, 0, 0, 0, 0])
        (some ([0, 0, 0, 1, 0, 0, 0, 0, 104, 105], 9, 9)) "e").map
      (fun r =>
        (r.1.immediate_callbacks.map (fun c => (c.event, c.data.allocId, c.to_free)),
         r.1.liveBuffers,
         (msg_runloop_dispatch (fun _ => []) r.1).1.liveBuffers,
         (msg_runloop_dispatch (fun _ => []) r.1).2.length)) =
    some ([(msg_connection_ready, none, none), (msg_message, some 0, none)],
      [0], [0], 2) := by
  rfl

/-- C7: a receive failure during the read phase — the header peek
(`recv`) failing, or the frame `recvfrom` failing — enqueues exactly one
OS-error event whose text joins the static description with the system
error text, and leaves the connection registered: `conns` and `poll_fds`
are unchanged and the conn object keeps its socket. -/
theorem read_error_keeps_registered (st : MState) (conn : Conn) (raw : List Nat)
    (recvOut : Option (List Nat × Nat × Nat)) (errnoText : String)
    (ht : (decode_header raw).message_type = one_way ∨
      (decode_header raw).message_type = request ∨
      (decode_header raw).message_type = reply)
    (hnp : (decode_header raw).num_packets = 1) :
    (∃ st2, read_from_socket st conn none recvOut errnoText = some (st2, conn) ∧
       st2.conns = st.conns ∧ st2.poll_fds = st.poll_fds ∧
       st2.immediate_callbacks = st.immediate_callbacks ++
         [{ conn := conn, event := msg_error,
            data := msg_new_data ("recv" ++ ": " ++ errnoText), to_free := none }]) ∧
    (∃ st2 conn2, read_from_socket st conn (some raw) none errnoText = some (st2, conn2) ∧
       conn2.socket = conn.socket ∧
       st2.conns = st.conns ∧ st2.poll_fds = st.poll_fds ∧
       st2.immediate_callbacks = st.immediate_callbacks ++
         [{ conn := conn2, event := msg_error,
            data := msg_new_data ("recvfrom" ++ ": " ++ errnoText), to_free := none }]) := by
  constructor
  · refine ⟨send_callback_os_error st conn "recv" errnoText none, rfl, rfl, rfl, ?_⟩
    simp [send_callback_os_error, send_callback_error, send_callback]
  · refine ⟨send_callback_os_error
        { st with liveBuffers := st.liveBuffers ++ [st.nextBuffer],
                  nextBuffer := st.nextBuffer + 1 }
        { conn with reply_id := (decode_header raw).reply_id } "recvfrom" errnoText none,
      { conn with reply_id := (decode_header raw).reply_id }, ?_, rfl, ?_, ?_, ?_⟩
    · rcases ht with h | h | h <;>
        simp [read_from_socket, classify_message_type, one_way, request, reply, h, hnp]
    · simp [send_callback_os_error, send_callback_error, send_callback]
    · simp [send_callback_os_error, send_callback_error, send_callback]
    · simp [send_callback_os_error, send_callback_error, send_callback]

/-- Witness for C7 at a concrete connection and frame. -/
theorem read_error_keeps_registered_witness :
    (((decode_header [0, 0, 0, 1, 0, 0, 0, 0]).message_type = one_way ∨
      (decode_header [0, 0, 0, 1, 0, 0, 0, 0]).message_type = request ∨
      (decode_header [0, 0, 0, 1, 0, 0, 0, 0]).message_type = reply) ∧
     (decode_header [0, 0, 0, 1, 0, 0, 0, 0]).num_packets = 1) ∧
    (∃ st2, read_from_socket init_state new_connection none none "E" = some (st2, new_connection) ∧
       st2.conns = init_state.conns ∧ st2.poll_fds = init_state.poll_fds ∧
       st2.immediate_callbacks = init_state.immediate_callbacks ++
         [{ conn := new_connection, event := msg_error,
            data := msg_new_data ("recv" ++ ": " ++ "E"), to_free := none }]) ∧
    (∃ st2 conn2, read_from_socket init_state new_connection (some [0, 0, 0, 1, 0, 0, 0, 0])
        none "E" = some (st2, conn2) ∧
       conn2.socket = new_connection.socket ∧
       st2.conns = init_state.conns ∧ st2.poll_fds = init_state.poll_fds ∧
       st2.immediate_callbacks = init_state.immediate_callbacks ++
         [{ conn := conn2, event := msg_error,
            data := msg_new_data ("recvfrom" ++ ": " ++ "E"), to_free := none }]) :=
  ⟨⟨by decide, by decide⟩,
    read_error_keeps_registered init_state new_connection [0, 0, 0, 1, 0, 0, 0, 0]
      none "E" (by decide) (by decide)⟩

/-- Witness for C9 at a concrete tcp:// address specification. -/
theorem open_socket_always_datagram_witness :
    socketTypesIn
        (open_socket init_state "tcp://1.2.3.4:5" false (some 3) (Except.ok (1, 2)) true "x").2 =
      [SOCK_DGRAM] ∧
    (open_socket init_state "tcp://1.2.3.4:5" false (some 3) (Except.ok (1, 2)) true "x").2.head? =
      some (SysCall.sys_socket AF_INET SOCK_DGRAM 0) ∧
    SOCK_DGRAM ≠ SOCK_STREAM :=
  open_socket_always_datagram init_state "tcp://1.2.3.4:5" false (some 3)
    (Except.ok (1, 2)) true "x"

/-- Fields of the conn that `parse_address_str` never touches: the
socket and the role survive a successful parse. -/
theorem parse_address_str_preserves (address : String) (ipPortOut : Except String (Nat × Nat))
    (conn c : Conn) (h : parse_address_str address ipPortOut conn = .ok c) :
    c.socket = conn.socket ∧ c.for_listening = conn.for_listening := by
  unfold parse_address_str at h
  by_cases h1 : address.toList.take 6 = "tcp://".toList <;>
    by_cases h2 : address.toList.take 6 = "udp://".toList <;>
    simp only [h1, h2, if_true, if_false] at h <;>
    rcases ipPortOut with e | ⟨ip, port⟩ <;> simp at h <;>
    (subst h; exact ⟨rfl, rfl⟩)

/-- C1 counterexample: a successful connecting `open_socket` whose
remote triple is already in `conn_status` leaves the connection
registered but enqueues no event at all, so the claimed "registered
with a listening/ready event, or absent with exactly one error event"
dichotomy fails at this input. -/
theorem open_socket_dichotomy_fails :
    open_socket_claimed_dichotomy
      { init_state with conn_status :=
          [({ ip := 16909060, port := 5, protocol_type := 2 }, { last_seen_at := 0 })] }
      (open_socket_state
        { init_state with conn_status :=
            [({ ip := 16909060, port := 5, protocol_type := 2 }, { last_seen_at := 0 })] }
        "udp://1.2.3.4:5" false (some 7) (Except.ok (16909060, 5)) true "x") = false := by
  decide

/-- C1 (amended): every `open_socket` call either (a) registers exactly
the new connection — appended to `conns`, its fd appended to
`poll_fds` — and enqueues no error event: a `msg_listening` event in
the listening role, and in the connecting role a
`msg_connection_ready` event precisely when the remote triple was not
already in `conn_status` and no event otherwise; or (b) leaves the
registered set unchanged and enqueues exactly one event, an error
event. -/
theorem open_socket_outcomes (st : MState) (address : String) (for_listening : Bool)
    (sockOut : Option Nat) (ipPortOut : Except String (Nat × Nat)) (openOk : Bool)
    (errnoText : String) :
    (∃ c,
      (open_socket_state st address for_listening sockOut ipPortOut openOk errnoText).conns
        = st.conns ++ [c] ∧
      (open_socket_state st address for_listening sockOut ipPortOut openOk errnoText).poll_fds
        = st.poll_fds ++ [c.socket] ∧
      newCallsOf st (open_socket_state st address for_listening sockOut ipPortOut openOk errnoText)
        = (if for_listening then
            [{ conn := c, event := msg_listening, data := msg_no_data, to_free := none }]
          else if statusHas st
              { ip := c.remote_ip, port := c.remote_port, protocol_type := c.protocol_type } then
            []
          else
            [{ conn := c, event := msg_connection_ready, data := msg_no_data, to_free := none }])) ∨
    ((open_socket_state st address for_listening sockOut ipPortOut openOk errnoText).conns
        = st.conns ∧
     (open_socket_state st address for_listening sockOut ipPortOut openOk errnoText).poll_fds
        = st.poll_fds ∧
     ∃ e, newCallsOf st
            (open_socket_state st address for_listening sockOut ipPortOut openOk errnoText)
          = [e] ∧ e.event = msg_error) := by
  unfold open_socket_state open_socket setup_sockaddr
  dsimp only
  rcases sockOut with _ | sock
  · refine Or.inr ⟨rfl, rfl,
      ⟨{ new_connection with for_listening := for_listening }, msg_error,
        msg_new_data ("socket" ++ ": " ++ errnoText),
        some (Alloc.connObj { new_connection with for_listening := for_listening })⟩,
      ?_, rfl⟩
    simp [newCallsOf, send_callback_os_error, send_callback_error, send_callback]
  · rcases hp : parse_address_str address ipPortOut
        { socket := sock, protocol_type := new_connection.protocol_type,
          remote_ip := new_connection.remote_ip, remote_port := new_connection.remote_port,
          reply_id := new_connection.reply_id, for_listening := for_listening } with e | c
    · simp only [hp]
      refine Or.inr ⟨?_, ?_,
        ⟨⟨sock, new_connection.protocol_type, new_connection.remote_ip,
            new_connection.remote_port, new_connection.reply_id, for_listening⟩,
          msg_error, msg_new_data e,
          some (Alloc.connObj ⟨sock, new_connection.protocol_type, new_connection.remote_ip,
            new_connection.remote_port, new_connection.reply_id, for_listening⟩)⟩,
        ?_, rfl⟩ <;>
        simp [remove_last_polling_conn, newCallsOf, send_callback_error, send_callback]
    · simp only [hp]
      have hsock : c.socket = sock :=
        (parse_address_str_preserves _ _ _ _ hp).1
      cases openOk with
      | false =>
        refine Or.inr ⟨?_, ?_,
          ⟨c, msg_error, msg_new_data ("bind" ++ ": " ++ errnoText),
            some (Alloc.connObj c)⟩,
          ?_, rfl⟩ <;>
          simp [remove_last_polling_conn, newCallsOf,
            send_callback_os_error, send_callback_error, send_callback]
      | true =>
        cases for_listening with
        | true =>
          refine Or.inl ⟨c, ?_, ?_, ?_⟩ <;>
            simp [hsock, newCallsOf, send_callback]
        | false =>
          refine Or.inl ⟨c, ?_, ?_, ?_⟩
          · simp [remote_address_seen, statusHas, tripleOf, send_callback]
            try (split <;> simp)
          · simp [remote_address_seen, statusHas, tripleOf, send_callback, hsock]
            try (split <;> simp)
          · simp [newCallsOf, remote_address_seen, statusHas, tripleOf, send_callback]
            try (split <;> simp [newCallsOf, send_callback])

end Msgbox
